import Mathlib

/-!
Shallow embedding of the Multi-Disease Detection System's prediction
pipeline and knowledge-base lookup engine (`main_app.py`, `mainfile.py`),
together with theorems settling the specification claims about them.

Numeric feature values are modelled as rationals (`ℚ`); Python exceptions
raised inside a request are modelled with `Except String`.
-/

namespace MultiDisease

/-- `DIABETES_FEATURES` from `main_app.py` (compile-time feature-order constant). -/
def DIABETES_FEATURES : List String :=
  ["gender", "age", "hypertension", "heart_disease",
   "smoking_history", "bmi", "HbA1c_level", "blood_glucose_level"]

/-- `CARDIO_FEATURES` from `main_app.py` (compile-time feature-order constant). -/
def CARDIO_FEATURES : List String :=
  ["age", "sex", "cp", "trestbps", "chol", "fbs", "restecg",
   "thalach", "exang", "oldpeak", "slope", "ca", "thal"]

/-- `gender_num = 1 if gender == "Male" else 0` (`main_app.py`). -/
def gender_num (gender : String) : ℚ := if gender = "Male" then 1 else 0

/-- `hypertension_num = 1 if hypertension == "Yes" else 0` (`main_app.py`). -/
def hypertension_num (hypertension : String) : ℚ := if hypertension = "Yes" then 1 else 0

/-- `heart_disease_num = 1 if heart_disease == "Yes" else 0` (`main_app.py`). -/
def heart_disease_num (heart_disease : String) : ℚ := if heart_disease = "Yes" then 1 else 0

/-- `fbs_num = 1 if fbs == "Yes" else 0` (`main_app.py`, cardio handler). -/
def fbs_num (fbs : String) : ℚ := if fbs = "Yes" then 1 else 0

/-- The `smoke_mapping` dictionary of `main_app.py`. -/
def smoke_mapping : List (String × ℚ) :=
  [("Never", 0), ("Former", 1), ("Current", 2),
   ("Not Current", 3), ("Ever", 4), ("Unknown", 5)]

/-- `smoke_mapping[smoking]`: a Python dict subscript, raising `KeyError`
(whose message is the quoted key) when the key is absent. -/
def smokeLookup (smoking : String) : Except String ℚ :=
  match smoke_mapping.lookup smoking with
  | some n => .ok n
  | none => .error ("KeyError: " ++ smoking)

/-- The diabetes form fields of `main_app.py` (patient name excluded: it is
not a feature). -/
structure DiabetesInput where
  gender : String
  age : ℕ
  hypertension : String
  heart_disease : String
  smoking : String
  bmi : ℚ
  hba1c : ℚ
  glucose : ℕ
deriving DecidableEq, Repr

/-- The categorical conversion plus `input_data` construction of the
diabetes handler (`main_app.py` lines 168-178): the smoking lookup may
raise, every other label is converted with an `if`/`else`. -/
def encodeDiabetes (i : DiabetesInput) : Except String (List ℚ) :=
  match smokeLookup i.smoking with
  | .error e => .error e
  | .ok smoking_num =>
      .ok [gender_num i.gender, (i.age : ℚ), hypertension_num i.hypertension,
           heart_disease_num i.heart_disease, smoking_num, i.bmi, i.hba1c, (i.glucose : ℚ)]

/-- The cardio form fields of `main_app.py` (patient name excluded).  The
form offers no chest-pain-type and no max-heart-rate field. -/
structure CardioInput where
  age : ℕ
  gender : String
  bp : ℕ
  cholesterol : ℕ
  fbs : String
  ecg : String
  angina : String
  depression : ℚ
  slope : String
  vessels : ℕ
  thal : String
deriving DecidableEq, Repr

/-- `ecg_options` (`main_app.py`). -/
def ecg_options : List String := ["Normal", "ST Abnormality", "LV Hypertrophy"]

/-- The angina option list of `main_app.py`. -/
def angina_options : List String := ["No", "Mild", "Severe"]

/-- `slope_options` (`main_app.py`). -/
def slope_options : List String := ["Upsloping", "Flat", "Downsloping"]

/-- The thalassemia option list of `main_app.py`. -/
def thal_options : List String := ["Normal", "Fixed Defect", "Reversible Defect"]

/-- Python's `list.index`, raising `ValueError` when the element is absent. -/
def listIndex (l : List String) (x : String) : Except String ℚ :=
  match l.findIdx? (fun y => y = x) with
  | some n => .ok (n : ℚ)
  | none => .error (x ++ " is not in list")

/-- The categorical conversion plus `input_data` construction of the cardio
handler (`main_app.py` lines 256-267).  Positions 2 and 7 of the array are
the literal constants `0` and `150` in the source. -/
def encodeCardio (i : CardioInput) : Except String (List ℚ) :=
  match listIndex ecg_options i.ecg with
  | .error e => .error e
  | .ok ecg_num =>
    match listIndex angina_options i.angina with
    | .error e => .error e
    | .ok angina_num =>
      match listIndex slope_options i.slope with
      | .error e => .error e
      | .ok slope_num =>
        match listIndex thal_options i.thal with
        | .error e => .error e
        | .ok thal_num =>
            .ok [(i.age : ℚ), gender_num i.gender, 0, (i.bp : ℚ),
                 (i.cholesterol : ℚ), fbs_num i.fbs, ecg_num, 150, angina_num,
                 i.depression, slope_num, (i.vessels : ℚ), thal_num]

/-- The cardio form fields of `mainfile.py` (already numeric there):
`cp` and `thalach` are genuine user inputs in that file. -/
structure MainfileCardioInput where
  age : ℕ
  sex : ℕ
  cp : ℕ
  trestbps : ℕ
  chol : ℕ
  fbs : ℕ
  restecg : ℕ
  thalach : ℕ
  exang : ℕ
  oldpeak : ℚ
  slope : ℕ
  ca : ℕ
  thal : ℕ
deriving DecidableEq, Repr

/-- The `input_data` list of the cardio handler in `mainfile.py` line 117. -/
def mainfileCardioInputData (i : MainfileCardioInput) : List ℚ :=
  [(i.age : ℚ), (i.sex : ℚ), (i.cp : ℚ), (i.trestbps : ℚ), (i.chol : ℚ),
   (i.fbs : ℚ), (i.restecg : ℚ), (i.thalach : ℚ), (i.exang : ℚ), i.oldpeak,
   (i.slope : ℚ), (i.ca : ℚ), (i.thal : ℚ)]

/-- The `inputs` argument of `generate_medical_report`: either a Python
dict (an ordered key/value mapping) or some non-dict value, mirroring the
`isinstance(inputs, dict)` test in the source. -/
inductive ReportInputs where
  | dict (entries : List (String × String))
  | nondict (raw : String)
deriving DecidableEq, Repr

/-- The data content of the document built by `generate_medical_report`
(`main_app.py` lines 97-126): title paragraph, patient-name paragraph, the
parameter paragraphs, and the prediction paragraph.  Spacers, fonts and
section headings are formatting, out of scope per the spec. -/
structure Report where
  title : String
  patientName : String
  paramLines : List String
  prediction : String
deriving DecidableEq, Repr

/-- `generate_medical_report(title, patient_name, inputs, prediction)`
(`main_app.py` lines 97-126): one `{param}: {value}` line per dict entry
when `inputs` is a dict, otherwise the single line
`Error: Invalid input data format`; title, patient name and prediction are
rendered unconditionally. -/
def generate_medical_report (title patient_name : String)
    (inputs : ReportInputs) (prediction : String) : Report :=
  { title := title
    patientName := patient_name
    paramLines :=
      match inputs with
      | .dict entries => entries.map (fun pv => pv.1 ++ ": " ++ pv.2)
      | .nondict _ => ["Error: Invalid input data format"]
    prediction := prediction }

/-- A loaded classifier-plus-scaler used as `model_utils.predict_*`: it is
given the encoded feature vector and either returns the discrete class or
raises (e.g. a feature-shape mismatch). -/
abbrev Predictor := List ℚ → Except String ℕ

/-- The `report_data` dict of the diabetes handler (`main_app.py`
lines 200-209). -/
def report_data (i : DiabetesInput) : List (String × String) :=
  [("Gender", i.gender), ("Age", toString i.age),
   ("Hypertension", i.hypertension), ("Heart Disease", i.heart_disease),
   ("Smoking Status", i.smoking), ("BMI", toString i.bmi),
   ("HbA1c Level", toString i.hba1c), ("Blood Glucose", toString i.glucose)]

/-- The body of the diabetes handler's `try` block (`main_app.py`
lines 167-185): encode the form inputs, then load the model and scaler
(`load`, which may raise an artifact error), then predict. -/
def diabetesPipeline (i : DiabetesInput) (load : Except String Predictor) :
    Except String ℕ :=
  match encodeDiabetes i with
  | .error e => .error e
  | .ok v =>
      match load with
      | .error e => .error e
      | .ok predict => predict v

/-- The prediction text passed to `generate_medical_report` by the
diabetes handler: `"High Risk" if prediction == 1 else "Low Risk"`. -/
def diabetesVerdict (p : ℕ) : String := if p = 1 then "High Risk" else "Low Risk"

/-- The per-session state (`st.session_state`) relevant to the claims:
the cached Knowledge Base, the cached Artifact Pair (held by the loader
per spec §2; never written by any handler), the last stored diabetes
report, and the last user-visible error message. -/
structure SessionState where
  knowledgeBase : Option (List (String × String))
  artifactCache : Option Predictor
  diabetesReport : Option Report
  lastErrorMsg : Option String

/-- One full diabetes-form submission of `main_app.py` (lines 166-217):
runs the pipeline; on success stores a report with the High/Low verdict,
on any raised error stores an error report built from
`{"Error": str(e)}` with verdict `"Error"` and shows
`Error in prediction: {e}`. -/
def diabetesStep (s : SessionState) (name : String) (i : DiabetesInput)
    (load : Except String Predictor) : SessionState :=
  match diabetesPipeline i load with
  | .ok p =>
      { s with
        diabetesReport := some (generate_medical_report "Diabetes Risk Report"
          name (.dict (report_data i)) (diabetesVerdict p))
        lastErrorMsg := none }
  | .error e =>
      { s with
        diabetesReport := some (generate_medical_report "Diabetes Risk Report"
          name (.dict [("Error", e)]) "Error")
        lastErrorMsg := some ("Error in prediction: " ++ e) }

/-- The chatbot's fixed fallback message (spec §4.5). -/
def FALLBACK : String := "I do not have information on that."

/-- Best-scoring key of the Knowledge Base for a query under similarity
`sim`, with the earliest key winning ties (a fixed deterministic
tie-break, as §4.5 requires). -/
def bestMatch (sim : String → String → ℕ) (query : String) :
    List (String × String) → Option (String × String × ℕ)
  | [] => none
  | (k, a) :: rest =>
      match bestMatch sim query rest with
      | none => some (k, a, sim query k)
      | some (k2, a2, sc2) =>
          if sim query k < sc2 then some (k2, a2, sc2) else some (k, a, sim query k)

/-- Modelled from the spec: `scripts/chatbot_utils.get_chatbot_response`
is code of this repository that is not under `src/`.  Per §4.5 it scores
every Knowledge-Base key against the query with an approximate
string-similarity measure, answers with the best key's value when the best
score clears the threshold, and returns the fixed fallback message
otherwise; an empty Knowledge Base always yields the fallback. -/
def get_chatbot_response (sim : String → String → ℕ) (threshold : ℕ)
    (query : String) (kb : List (String × String)) : String :=
  match bestMatch sim query kb with
  | none => FALLBACK
  | some (_, a, sc) => if sc < threshold then FALLBACK else a

/-- Modelled from the spec: `scripts/chatbot_utils.load_knowledge_base` is
code of this repository that is not under `src/`.  Per §4.4 it parses the
source document into a question-to-answer mapping and degrades to an empty
Knowledge Base when the document is missing or unparsable (`none` here
models that case; `some pairs` a successfully parsed document). -/
def load_knowledge_base (doc : Option (List (String × String))) :
    List (String × String) :=
  match doc with
  | some pairs => pairs
  | none => []

/-- One chatbot interaction of `main_app.py` (lines 327-346): the
Knowledge Base is loaded only when absent from `st.session_state` and the
cached mapping is reused otherwise.  Returns the new state, the response,
and how many times the loader ran during this interaction. -/
def chatbotStep (s : SessionState) (loadKB : Unit → List (String × String))
    (sim : String → String → ℕ) (threshold : ℕ) (query : String) :
    SessionState × String × ℕ :=
  match s.knowledgeBase with
  | some kb =>
      ({ s with knowledgeBase := some kb },
       get_chatbot_response sim threshold query kb, 0)
  | none =>
      let kb := loadKB ()
      ({ s with knowledgeBase := some kb },
       get_chatbot_response sim threshold query kb, 1)

/-- One chatbot interaction of `mainfile.py` (lines 136-150): the script
body reruns on every interaction and line 138 calls
`load_knowledge_base` unconditionally, so the loader runs once per
interaction and nothing is cached in session state. -/
def mainfileChatbotStep (s : SessionState)
    (loadKB : Unit → List (String × String))
    (sim : String → String → ℕ) (threshold : ℕ) (query : String) :
    SessionState × String × ℕ :=
  let kb := loadKB ()
  (s, get_chatbot_response sim threshold query kb, 1)

/-- Modelled from the spec: the scaler-plus-classifier stub of the §8
end-to-end diabetes scenario (the real `model_utils.predict_diabetes` is
not under `src/`).  It flags HbA1c — feature index 6 of the diabetes
order — above 6.5, and fails on a feature-shape mismatch. -/
def hba1cStub : Predictor := fun v =>
  if v.length = 8 then (if 13/2 < v.getD 6 0 then .ok 1 else .ok 0)
  else .error "feature-shape mismatch"

/-- The `{param}: {value}` paragraph rendered for one dict entry of the
report's parameter section. -/
def paramLine (pv : String × String) : String := pv.1 ++ ": " ++ pv.2

/-- A fresh session: nothing cached, no report, no error message. -/
def freshSession : SessionState := ⟨none, none, none, none⟩

/-- The diabetes input set of the spec's end-to-end scenario (§8). -/
def scenarioInput : DiabetesInput := ⟨"Male", 45, "No", "No", "Never", 31.0, 7.2, 190⟩

/-- Successful diabetes encodings are exactly the 8-element list built from
the form fields, with the smoking code coming from `smoke_mapping`. -/
theorem encodeDiabetes_ok_shape (i : DiabetesInput) (v : List ℚ)
    (h : encodeDiabetes i = .ok v) :
    ∃ sn, smokeLookup i.smoking = .ok sn ∧
      v = [gender_num i.gender, (i.age : ℚ), hypertension_num i.hypertension,
           heart_disease_num i.heart_disease, sn, i.bmi, i.hba1c, (i.glucose : ℚ)] := by
  revert h
  unfold encodeDiabetes
  cases hs : smokeLookup i.smoking <;> intro h
  · exact absurd h (by simp)
  · exact ⟨_, rfl, by injection h with h; exact h.symm⟩

/-- Successful cardio encodings are exactly the 13-element list built in
the handler, with positions 2 and 7 the literal constants 0 and 150. -/
theorem encodeCardio_ok_shape (i : CardioInput) (v : List ℚ)
    (h : encodeCardio i = .ok v) :
    ∃ en an sn tn, listIndex ecg_options i.ecg = .ok en
      ∧ listIndex angina_options i.angina = .ok an
      ∧ listIndex slope_options i.slope = .ok sn
      ∧ listIndex thal_options i.thal = .ok tn
      ∧ v = [(i.age : ℚ), gender_num i.gender, 0, (i.bp : ℚ),
             (i.cholesterol : ℚ), fbs_num i.fbs, en, 150, an,
             i.depression, sn, (i.vessels : ℚ), tn] := by
  revert h
  unfold encodeCardio
  cases h1 : listIndex ecg_options i.ecg <;>
    cases h2 : listIndex angina_options i.angina <;>
    cases h3 : listIndex slope_options i.slope <;>
    cases h4 : listIndex thal_options i.thal <;>
    intro h
  case ok.ok.ok.ok =>
    exact ⟨_, _, _, _, rfl, rfl, rfl, rfl, by injection h with h; exact h.symm⟩
  all_goals exact absurd h (by simp)

/-- C3: the spec's end-to-end diabetes scenario: the inputs
{gender Male, age 45, hypertension No, heart-disease No, smoking Never,
bmi 31.0, hba1c 7.2, glucose 190} encode to exactly
[1, 45, 0, 0, 0, 31.0, 7.2, 190] in the fixed diabetes feature order, and
running the pipeline with the scaler+classifier stub that flags
hba1c > 6.5 yields Prediction Result 1, rendered as "High Risk". -/
theorem diabetes_end_to_end_scenario :
    encodeDiabetes scenarioInput = .ok [1, 45, 0, 0, 0, 31.0, 7.2, 190]
    ∧ diabetesPipeline scenarioInput (.ok hba1cStub) = .ok 1
    ∧ diabetesVerdict 1 = "High Risk" := by
  have h1 : encodeDiabetes scenarioInput = .ok [1, 45, 0, 0, 0, 31.0, 7.2, 190] := rfl
  refine ⟨h1, ?_, rfl⟩
  simp only [diabetesPipeline, h1, hba1cStub, List.length, List.getD]
  norm_num

/-- C10: a non-dict `inputs` value still produces a complete report: the
parameter section is replaced by the single line
"Error: Invalid input data format" while title, patient name and
prediction are rendered unchanged. -/
theorem report_tolerates_nondict_inputs (title name pred raw : String) :
    generate_medical_report title name (.nondict raw) pred =
      { title := title, patientName := name,
        paramLines := ["Error: Invalid input data format"],
        prediction := pred } :=
  rfl

/-- C7: a missing or unparsable knowledge document degrades to the empty
Knowledge Base, and every query against it returns exactly the fixed
fallback message — never an error and never the empty string. -/
theorem empty_knowledge_base_always_falls_back
    (sim : String → String → ℕ) (threshold : ℕ) (query : String) :
    load_knowledge_base none = []
    ∧ get_chatbot_response sim threshold query (load_knowledge_base none) = FALLBACK
    ∧ FALLBACK ≠ "" :=
  ⟨rfl, rfl, by decide⟩

/-- C8 counterexample: in mainfile's chatbot a second interaction of the
same session runs the knowledge-base loader again (loader count 1, not 0),
re-parsing the source document instead of reusing a cached mapping. -/
theorem mainfile_chatbot_reloads_every_interaction :
    (mainfileChatbotStep
      (mainfileChatbotStep freshSession (fun _ => [("k", "a")]) (fun _ _ => 0) 60 "q1").1
      (fun _ => [("k", "a")]) (fun _ _ => 0) 60 "q2").2.2 = 1 :=
  rfl

/-- C8 (amended): in main_app the Knowledge Base is constructed at most
once per session: after any first chatbot interaction, a second
interaction invokes the loader zero times, leaves the cached mapping
unchanged (it is never mutated), and behaves identically whatever loader
it is given; in mainfile, by contrast, every interaction invokes the
loader once. -/
theorem knowledge_base_loaded_once_in_main_app (s0 : SessionState)
    (load1 load2 load3 : Unit → List (String × String))
    (sim : String → String → ℕ) (threshold : ℕ) (q1 q2 : String) :
    (chatbotStep (chatbotStep s0 load1 sim threshold q1).1 load2 sim threshold q2).2.2 = 0
    ∧ (chatbotStep (chatbotStep s0 load1 sim threshold q1).1 load2 sim threshold q2).1.knowledgeBase
        = (chatbotStep s0 load1 sim threshold q1).1.knowledgeBase
    ∧ chatbotStep (chatbotStep s0 load1 sim threshold q1).1 load2 sim threshold q2
        = chatbotStep (chatbotStep s0 load1 sim threshold q1).1 load3 sim threshold q2
    ∧ (mainfileChatbotStep s0 load1 sim threshold q1).2.2 = 1 := by
  cases h : s0.knowledgeBase <;>
    simp [chatbotStep, mainfileChatbotStep, h]

/-- C1 counterexample: the gender label "Other" has no entry in any
Categorical Encoding Table, yet encoding does not fail: the label is
silently mapped to the default code 0 and the resulting feature vector
reaches the predictor, which returns a prediction. -/
theorem unmapped_gender_silently_defaults :
    encodeDiabetes ⟨"Other", 45, "No", "No", "Never", 31.0, 7.2, 190⟩
        = .ok [0, 45, 0, 0, 0, 31.0, 7.2, 190]
    ∧ diabetesPipeline ⟨"Other", 45, "No", "No", "Never", 31.0, 7.2, 190⟩
        (.ok hba1cStub) = .ok 1 := by
  have h1 : encodeDiabetes ⟨"Other", 45, "No", "No", "Never", 31.0, 7.2, 190⟩
      = .ok [0, 45, 0, 0, 0, 31.0, 7.2, 190] := rfl
  refine ⟨h1, ?_⟩
  simp only [diabetesPipeline, h1, hba1cStub, List.length, List.getD]
  norm_num

/-- C1 (amended): only the smoking-history label is looked up in a
Categorical Encoding Table: a smoking label with no entry makes the
encoding fail with the KeyError naming the value, and no feature vector
reaches the predictor; the gender, hypertension and heart-disease labels
are instead compared against one distinguished label, and every
unrecognized label silently encodes to the default code 0. -/
theorem unmapped_smoking_fails_others_default (i : DiabetesInput)
    (hs : smoke_mapping.lookup i.smoking = none) :
    encodeDiabetes i = .error ("KeyError: " ++ i.smoking)
    ∧ (∀ load, diabetesPipeline i load = .error ("KeyError: " ++ i.smoking))
    ∧ (i.gender ≠ "Male" → gender_num i.gender = 0)
    ∧ (i.hypertension ≠ "Yes" → hypertension_num i.hypertension = 0)
    ∧ (i.heart_disease ≠ "Yes" → heart_disease_num i.heart_disease = 0) := by
  have he : encodeDiabetes i = .error ("KeyError: " ++ i.smoking) := by
    simp [encodeDiabetes, smokeLookup, hs]
  refine ⟨he, fun load => by simp [diabetesPipeline, he], ?_, ?_, ?_⟩
  · intro h; simp [gender_num, h]
  · intro h; simp [hypertension_num, h]
  · intro h; simp [heart_disease_num, h]

/-- Closed instance of the C1 amended theorem at a concrete input whose
smoking label is unmapped and whose other labels are unrecognized. -/
theorem unmapped_smoking_fails_others_default_witness :
    encodeDiabetes ⟨"X", 1, "Nope", "Nah", "Smokes", 20, 5, 100⟩
        = .error ("KeyError: " ++ "Smokes")
    ∧ gender_num "X" = 0
    ∧ hypertension_num "Nope" = 0
    ∧ heart_disease_num "Nah" = 0 :=
  have h := unmapped_smoking_fails_others_default
    ⟨"X", 1, "Nope", "Nah", "Smokes", 20, 5, 100⟩ rfl
  ⟨h.1, h.2.2.1 (by decide), h.2.2.2.1 (by decide), h.2.2.2.2 (by decide)⟩

/-- C2 fails on main_app: positions 2 (cp, chest-pain type) and
7 (thalach, max heart rate) of every successfully encoded cardio vector
are the literal constants 0 and 150, independent of every form field —
main_app's cardio form offers no chest-pain-type or max-heart-rate input
at all — whereas mainfile's cardio handler fills those positions from the
user's cp and thalach fields. -/
theorem cardio_positions_2_and_7_are_constants (i : CardioInput)
    (v : List ℚ) (h : encodeCardio i = .ok v) (j : MainfileCardioInput) :
    v.get? 2 = some 0 ∧ v.get? 7 = some 150
    ∧ (mainfileCardioInputData j).get? 2 = some (j.cp : ℚ)
    ∧ (mainfileCardioInputData j).get? 7 = some (j.thalach : ℚ) := by
  obtain ⟨en, an, sn, tn, _, _, _, _, hv⟩ := encodeCardio_ok_shape i v h
  subst hv
  exact ⟨rfl, rfl, rfl, rfl⟩

/-- A concrete cardio form submission (all labels valid). -/
def cardioWitnessInput : CardioInput :=
  ⟨45, "Female", 120, 200, "No", "Normal", "No", 1.0, "Upsloping", 0, "Normal"⟩

/-- Closed instance of the C2 theorem at a concrete cardio submission. -/
theorem cardio_positions_2_and_7_witness :
    ([45, 0, 0, 120, 200, 0, 0, 150, 0, 1.0, 0, 0, 0] : List ℚ).get? 2 = some 0
    ∧ ([45, 0, 0, 120, 200, 0, 0, 150, 0, 1.0, 0, 0, 0] : List ℚ).get? 7 = some 150
    ∧ (mainfileCardioInputData ⟨50, 1, 2, 120, 200, 0, 0, 160, 0, 1.0, 0, 0, 1⟩).get? 2
        = some 2
    ∧ (mainfileCardioInputData ⟨50, 1, 2, 120, 200, 0, 0, 160, 0, 1.0, 0, 0, 1⟩).get? 7
        = some 160 :=
  cardio_positions_2_and_7_are_constants cardioWitnessInput
    [45, 0, 0, 120, 200, 0, 0, 150, 0, 1.0, 0, 0, 0] rfl
    ⟨50, 1, 2, 120, 200, 0, 0, 160, 0, 1.0, 0, 0, 1⟩

/-- C4: a successfully encoded diabetes vector has exactly 8 elements and
a cardio vector exactly 13 — the lengths of the compile-time feature-order
constants DIABETES_FEATURES and CARDIO_FEATURES — and each position of
both vectors carries exactly the value the handler assigns to the feature
the constant names at that position, in the constant's fixed order:
for the diabetes vector the encoding of the named form field, and for the
cardio vector the named field's value at every position except the cp and
thalach slots (positions 2 and 7), which hold the handler's literal
constants 0 and 150. -/
theorem feature_vector_length_and_order (i : DiabetesInput) (j : CardioInput)
    (v w : List ℚ) (hv : encodeDiabetes i = .ok v) (hw : encodeCardio j = .ok w) :
    v.length = DIABETES_FEATURES.length ∧ v.length = 8
    ∧ w.length = CARDIO_FEATURES.length ∧ w.length = 13
    ∧ v.get? 0 = some (gender_num i.gender)
    ∧ v.get? 1 = some (i.age : ℚ)
    ∧ v.get? 2 = some (hypertension_num i.hypertension)
    ∧ v.get? 3 = some (heart_disease_num i.heart_disease)
    ∧ v.get? 4 = (smokeLookup i.smoking).toOption
    ∧ v.get? 5 = some i.bmi
    ∧ v.get? 6 = some i.hba1c
    ∧ v.get? 7 = some (i.glucose : ℚ)
    ∧ w.get? 0 = some (j.age : ℚ)
    ∧ w.get? 1 = some (gender_num j.gender)
    ∧ w.get? 2 = some 0
    ∧ w.get? 3 = some (j.bp : ℚ)
    ∧ w.get? 4 = some (j.cholesterol : ℚ)
    ∧ w.get? 5 = some (fbs_num j.fbs)
    ∧ w.get? 6 = (listIndex ecg_options j.ecg).toOption
    ∧ w.get? 7 = some 150
    ∧ w.get? 8 = (listIndex angina_options j.angina).toOption
    ∧ w.get? 9 = some j.depression
    ∧ w.get? 10 = (listIndex slope_options j.slope).toOption
    ∧ w.get? 11 = some (j.vessels : ℚ)
    ∧ w.get? 12 = (listIndex thal_options j.thal).toOption := by
  obtain ⟨sn, hsn, hv'⟩ := encodeDiabetes_ok_shape i v hv
  obtain ⟨en, an, sln, tn, hen, han, hsln, htn, hw'⟩ := encodeCardio_ok_shape j w hw
  subst hv'; subst hw'
  refine ⟨rfl, rfl, rfl, rfl, rfl, rfl, rfl, rfl, ?_, rfl, rfl, rfl,
          rfl, rfl, rfl, rfl, rfl, rfl, ?_, rfl, ?_, rfl, ?_, rfl, ?_⟩
  · rw [hsn]; rfl
  · rw [hen]; rfl
  · rw [han]; rfl
  · rw [hsln]; rfl
  · rw [htn]; rfl

/-- Closed instance of the C4 theorem at concrete form submissions. -/
theorem feature_vector_length_and_order_witness :
    ([1, 45, 0, 0, 0, 31.0, 7.2, 190] : List ℚ).length = DIABETES_FEATURES.length
    ∧ ([1, 45, 0, 0, 0, 31.0, 7.2, 190] : List ℚ).length = 8
    ∧ ([45, 0, 0, 120, 200, 0, 0, 150, 0, 1.0, 0, 0, 0] : List ℚ).length
        = CARDIO_FEATURES.length
    ∧ ([45, 0, 0, 120, 200, 0, 0, 150, 0, 1.0, 0, 0, 0] : List ℚ).length = 13
    ∧ ([1, 45, 0, 0, 0, 31.0, 7.2, 190] : List ℚ).get? 0
        = some (gender_num scenarioInput.gender)
    ∧ ([1, 45, 0, 0, 0, 31.0, 7.2, 190] : List ℚ).get? 1
        = some (scenarioInput.age : ℚ)
    ∧ ([1, 45, 0, 0, 0, 31.0, 7.2, 190] : List ℚ).get? 2
        = some (hypertension_num scenarioInput.hypertension)
    ∧ ([1, 45, 0, 0, 0, 31.0, 7.2, 190] : List ℚ).get? 3
        = some (heart_disease_num scenarioInput.heart_disease)
    ∧ ([1, 45, 0, 0, 0, 31.0, 7.2, 190] : List ℚ).get? 4
        = (smokeLookup scenarioInput.smoking).toOption
    ∧ ([1, 45, 0, 0, 0, 31.0, 7.2, 190] : List ℚ).get? 5 = some scenarioInput.bmi
    ∧ ([1, 45, 0, 0, 0, 31.0, 7.2, 190] : List ℚ).get? 6 = some scenarioInput.hba1c
    ∧ ([1, 45, 0, 0, 0, 31.0, 7.2, 190] : List ℚ).get? 7
        = some (scenarioInput.glucose : ℚ)
    ∧ ([45, 0, 0, 120, 200, 0, 0, 150, 0, 1.0, 0, 0, 0] : List ℚ).get? 0
        = some (cardioWitnessInput.age : ℚ)
    ∧ ([45, 0, 0, 120, 200, 0, 0, 150, 0, 1.0, 0, 0, 0] : List ℚ).get? 1
        = some (gender_num cardioWitnessInput.gender)
    ∧ ([45, 0, 0, 120, 200, 0, 0, 150, 0, 1.0, 0, 0, 0] : List ℚ).get? 2 = some 0
    ∧ ([45, 0, 0, 120, 200, 0, 0, 150, 0, 1.0, 0, 0, 0] : List ℚ).get? 3
        = some (cardioWitnessInput.bp : ℚ)
    ∧ ([45, 0, 0, 120, 200, 0, 0, 150, 0, 1.0, 0, 0, 0] : List ℚ).get? 4
        = some (cardioWitnessInput.cholesterol : ℚ)
    ∧ ([45, 0, 0, 120, 200, 0, 0, 150, 0, 1.0, 0, 0, 0] : List ℚ).get? 5
        = some (fbs_num cardioWitnessInput.fbs)
    ∧ ([45, 0, 0, 120, 200, 0, 0, 150, 0, 1.0, 0, 0, 0] : List ℚ).get? 6
        = (listIndex ecg_options cardioWitnessInput.ecg).toOption
    ∧ ([45, 0, 0, 120, 200, 0, 0, 150, 0, 1.0, 0, 0, 0] : List ℚ).get? 7 = some 150
    ∧ ([45, 0, 0, 120, 200, 0, 0, 150, 0, 1.0, 0, 0, 0] : List ℚ).get? 8
        = (listIndex angina_options cardioWitnessInput.angina).toOption
    ∧ ([45, 0, 0, 120, 200, 0, 0, 150, 0, 1.0, 0, 0, 0] : List ℚ).get? 9
        = some cardioWitnessInput.depression
    ∧ ([45, 0, 0, 120, 200, 0, 0, 150, 0, 1.0, 0, 0, 0] : List ℚ).get? 10
        = (listIndex slope_options cardioWitnessInput.slope).toOption
    ∧ ([45, 0, 0, 120, 200, 0, 0, 150, 0, 1.0, 0, 0, 0] : List ℚ).get? 11
        = some (cardioWitnessInput.vessels : ℚ)
    ∧ ([45, 0, 0, 120, 200, 0, 0, 150, 0, 1.0, 0, 0, 0] : List ℚ).get? 12
        = (listIndex thal_options cardioWitnessInput.thal).toOption :=
  feature_vector_length_and_order scenarioInput cardioWitnessInput
    [1, 45, 0, 0, 0, 31.0, 7.2, 190]
    [45, 0, 0, 120, 200, 0, 0, 150, 0, 1.0, 0, 0, 0] rfl rfl

/-- C5 counterexample: a failed prediction request generates a report that
does not contain one line per entry of the raw input parameter mapping:
its parameter section is the single line built from the error mapping. -/
theorem failed_report_drops_raw_inputs :
    (diabetesStep freshSession "A" scenarioInput
        (.error "artifact unavailable")).diabetesReport
      = some { title := "Diabetes Risk Report", patientName := "A",
               paramLines := ["Error: artifact unavailable"],
               prediction := "Error" }
    ∧ ["Error: artifact unavailable"] ≠ (report_data scenarioInput).map paramLine := by
  constructor
  · rfl
  · intro hcontra
    have h8 := congrArg List.length hcontra
    simp [report_data] at h8

/-- C5 (amended): every diabetes request (successful or failed) stores a
report containing exactly the report title, the patient name, a parameter
section, and a verdict among "High Risk", "Low Risk" and "Error" —
"High Risk" iff the binary Prediction Result is 1, "Low Risk" iff it is 0,
and "Error" iff the pipeline raised; the parameter section lists one line
per raw input entry when the pipeline succeeds, and on failure the single
line rendering the error mapping replaces the raw input listing. -/
theorem report_structure_and_verdict (s : SessionState) (name : String)
    (i : DiabetesInput) (load : Except String Predictor)
    (hbin : ∀ p, diabetesPipeline i load = .ok p → p = 0 ∨ p = 1) :
    (diabetesStep s name i load).diabetesReport.map Report.title
        = some "Diabetes Risk Report"
    ∧ (diabetesStep s name i load).diabetesReport.map Report.patientName = some name
    ∧ ((diabetesStep s name i load).diabetesReport.map Report.prediction
          = some "High Risk"
       ∨ (diabetesStep s name i load).diabetesReport.map Report.prediction
          = some "Low Risk"
       ∨ (diabetesStep s name i load).diabetesReport.map Report.prediction
          = some "Error")
    ∧ ((diabetesStep s name i load).diabetesReport.map Report.prediction
          = some "High Risk" ↔ diabetesPipeline i load = .ok 1)
    ∧ ((diabetesStep s name i load).diabetesReport.map Report.prediction
          = some "Low Risk" ↔ diabetesPipeline i load = .ok 0)
    ∧ ((diabetesStep s name i load).diabetesReport.map Report.prediction
          = some "Error" ↔ (diabetesPipeline i load).isOk = false)
    ∧ (diabetesStep s name i load).diabetesReport.map Report.paramLines
        = some (match diabetesPipeline i load with
                | .ok _ => (report_data i).map paramLine
                | .error e => [paramLine ("Error", e)]) := by
  have hHL : ("High Risk" : String) ≠ "Low Risk" := by decide
  have hHE : ("High Risk" : String) ≠ "Error" := by decide
  have hLE : ("Low Risk" : String) ≠ "Error" := by decide
  cases hp : diabetesPipeline i load with
  | ok p =>
    rcases hbin p hp with rfl | rfl
    · simp [diabetesStep, hp, generate_medical_report, diabetesVerdict, paramLine,
            Except.isOk, Except.toBool, hHL, hHE, hLE, hHL.symm, hHE.symm, hLE.symm]
    · simp [diabetesStep, hp, generate_medical_report, diabetesVerdict, paramLine,
            Except.isOk, Except.toBool, hHL, hHE, hLE, hHL.symm, hHE.symm, hLE.symm]
  | error e =>
    simp [diabetesStep, hp, generate_medical_report, diabetesVerdict, paramLine,
          Except.isOk, Except.toBool, hHL, hHE, hLE, hHL.symm, hHE.symm, hLE.symm]

/-- Closed instance of the C5 amended theorem at a concrete failed
request (the artifact load raises). -/
theorem report_structure_and_verdict_witness :
    (diabetesStep freshSession "A" scenarioInput (.error "m")).diabetesReport.map
        Report.title = some "Diabetes Risk Report"
    ∧ (diabetesStep freshSession "A" scenarioInput (.error "m")).diabetesReport.map
        Report.patientName = some "A"
    ∧ ((diabetesStep freshSession "A" scenarioInput (.error "m")).diabetesReport.map
          Report.prediction = some "High Risk"
       ∨ (diabetesStep freshSession "A" scenarioInput (.error "m")).diabetesReport.map
          Report.prediction = some "Low Risk"
       ∨ (diabetesStep freshSession "A" scenarioInput (.error "m")).diabetesReport.map
          Report.prediction = some "Error")
    ∧ ((diabetesStep freshSession "A" scenarioInput (.error "m")).diabetesReport.map
          Report.prediction = some "High Risk"
        ↔ diabetesPipeline scenarioInput (.error "m") = .ok 1)
    ∧ ((diabetesStep freshSession "A" scenarioInput (.error "m")).diabetesReport.map
          Report.prediction = some "Low Risk"
        ↔ diabetesPipeline scenarioInput (.error "m") = .ok 0)
    ∧ ((diabetesStep freshSession "A" scenarioInput (.error "m")).diabetesReport.map
          Report.prediction = some "Error"
        ↔ (diabetesPipeline scenarioInput (.error "m")).isOk = false)
    ∧ (diabetesStep freshSession "A" scenarioInput (.error "m")).diabetesReport.map
        Report.paramLines
        = some (match diabetesPipeline scenarioInput (.error "m") with
                | .ok _ => (report_data scenarioInput).map paramLine
                | .error e => [paramLine ("Error", e)]) :=
  report_structure_and_verdict freshSession "A" scenarioInput (.error "m")
    (fun p hp => by
      have h0 : diabetesPipeline scenarioInput (.error "m") = .error "m" := rfl
      rw [h0] at hp
      exact absurd hp (by simp))

/-- C6: every error raised inside one diabetes request — artifact load
failure, encoding failure, or a predictor failure such as a feature-shape
mismatch — is caught at that request's boundary: the handler stores an
error report and shows the user-visible message, it leaves the cached
Knowledge Base and Artifact Pair untouched, and a subsequent request run
from the resulting state produces exactly the report it would have
produced without the earlier failure. -/
theorem request_errors_are_contained (s : SessionState) (name : String)
    (i : DiabetesInput) (load : Except String Predictor) (e : String)
    (he : diabetesPipeline i load = .error e) :
    (diabetesStep s name i load).knowledgeBase = s.knowledgeBase
    ∧ (diabetesStep s name i load).artifactCache = s.artifactCache
    ∧ (diabetesStep s name i load).lastErrorMsg
        = some ("Error in prediction: " ++ e)
    ∧ (diabetesStep s name i load).diabetesReport.map Report.prediction
        = some "Error"
    ∧ (∀ name2 i2 load2,
        (diabetesStep (diabetesStep s name i load) name2 i2 load2).diabetesReport
          = (diabetesStep s name2 i2 load2).diabetesReport) := by
  refine ⟨by simp [diabetesStep, he], by simp [diabetesStep, he],
          by simp [diabetesStep, he],
          by simp [diabetesStep, he, generate_medical_report], ?_⟩
  intro name2 i2 load2
  cases hp : diabetesPipeline i2 load2 <;> simp [diabetesStep, hp]

/-- Closed instance of the C6 theorem: a request whose artifact load
raises, followed by a second, successful request. -/
theorem request_errors_are_contained_witness :
    (diabetesStep freshSession "A" scenarioInput
        (.error "artifact unavailable")).knowledgeBase = freshSession.knowledgeBase
    ∧ (diabetesStep freshSession "A" scenarioInput
        (.error "artifact unavailable")).artifactCache = freshSession.artifactCache
    ∧ (diabetesStep freshSession "A" scenarioInput
        (.error "artifact unavailable")).lastErrorMsg
        = some ("Error in prediction: " ++ "artifact unavailable")
    ∧ (diabetesStep freshSession "A" scenarioInput
        (.error "artifact unavailable")).diabetesReport.map Report.prediction
        = some "Error"
    ∧ (diabetesStep
        (diabetesStep freshSession "A" scenarioInput (.error "artifact unavailable"))
        "B" scenarioInput (.ok hba1cStub)).diabetesReport
        = (diabetesStep freshSession "B" scenarioInput (.ok hba1cStub)).diabetesReport :=
  have h := request_errors_are_contained freshSession "A" scenarioInput
    (.error "artifact unavailable") "artifact unavailable" rfl
  ⟨h.1, h.2.1, h.2.2.1, h.2.2.2.1, h.2.2.2.2 "B" scenarioInput (.ok hba1cStub)⟩

/-- C9: feature encoding is pure and deterministic: two encodings of the
same input set produce element-for-element identical feature vectors, and
the report a form submission stores is independent of the ambient session
state — prior submissions and run counts included. -/
theorem encoding_is_pure (i : DiabetesInput) (v1 v2 : List ℚ)
    (h1 : encodeDiabetes i = .ok v1) (h2 : encodeDiabetes i = .ok v2)
    (s1 s2 : SessionState) (name : String) (load : Except String Predictor) :
    (∀ k, v1.get? k = v2.get? k)
    ∧ (diabetesStep s1 name i load).diabetesReport
        = (diabetesStep s2 name i load).diabetesReport := by
  constructor
  · rw [h1] at h2
    intro k
    rw [Except.ok.inj h2]
  · cases hp : diabetesPipeline i load <;> simp [diabetesStep, hp]

/-- Closed instance of the C9 theorem: the scenario input encoded twice,
run from two different ambient session states. -/
theorem encoding_is_pure_witness :
    ([1, 45, 0, 0, 0, 31.0, 7.2, 190] : List ℚ).get? 4
        = ([1, 45, 0, 0, 0, 31.0, 7.2, 190] : List ℚ).get? 4
    ∧ (diabetesStep freshSession "A" scenarioInput (.ok hba1cStub)).diabetesReport
        = (diabetesStep ⟨some [("k", "a")], none, none, some "x"⟩ "A" scenarioInput
            (.ok hba1cStub)).diabetesReport :=
  have h := encoding_is_pure scenarioInput
    [1, 45, 0, 0, 0, 31.0, 7.2, 190] [1, 45, 0, 0, 0, 31.0, 7.2, 190] rfl rfl
    freshSession ⟨some [("k", "a")], none, none, some "x"⟩ "A" (.ok hba1cStub)
  ⟨h.1 4, h.2⟩

end MultiDisease
